import Mathlib

/-!
Verification of the libgit2 boundary shim (`src/shim/src/lib.rs`).

The shim exports 14 C-ABI functions, each of whose body is a single call into
the underlying libgit2 library.  We embed the shim shallowly:

* machine pointers are modelled as natural-number addresses (`Ptr`), with `0`
  the null pointer; C `int` is `Int`, `unsigned`/`size_t` are `Nat`;
* caller-visible memory is a map from addresses to natural numbers (`Mem`) —
  the only values the modelled operations ever write through output
  parameters are handles (pointers) and counts;
* the underlying library is an abstract environment: a structure `Lib` with
  one field per `extern "C"` declaration of the source's `raw` module, each a
  function from its arguments and the current memory to its result and the
  memory after the call;
* every invocation of an underlying library function is additionally recorded
  as a `LibCall` event, so that a shim function's behaviour is a triple
  (returned value, memory after, trace of library invocations) and "invokes
  the library exactly once with exactly those arguments" is the statement
  that the trace is the singleton of the corresponding event.

Each `git2_shim_*` definition below is the translation of the Rust function
of the same name.  Behaviour of libgit2 itself (which is external to the
repository) is modelled separately by `libModel`, built from the spec's
description of the library's contracts.
-/

/-- A machine pointer, as an address; `0` is the null pointer. -/
abbrev Ptr := Nat

/-- C `int`. -/
abbrev CInt := Int

/-- C `unsigned int`. -/
abbrev CUInt := Nat

/-- C `size_t`. -/
abbrev CSize := Nat

/-- Caller-visible memory: a map from addresses to stored values (handles and
counts, both modelled as naturals). -/
abbrev Mem := Nat → Nat

/-- Point update of a memory. -/
def writeMem (m : Mem) (a v : Nat) : Mem :=
  fun x => if x = a then v else m x

/-- One event per underlying library function of the source's `extern "C"`
block, recording the exact argument values the library was invoked with. -/
inductive LibCall where
  | git_libgit2_init
  | git_libgit2_shutdown
  | git_repository_open (out : Ptr) (path : Ptr)
  | git_repository_free (repo : Ptr)
  | git_repository_is_bare (repo : Ptr)
  | git_repository_workdir (repo : Ptr)
  | git_status_options_init (opts : Ptr) (version : CUInt)
  | git_status_list_new (out : Ptr) (repo : Ptr) (opts : Ptr)
  | git_status_list_free (list : Ptr)
  | git_status_list_entrycount (list : Ptr)
  | git_repository_head (out : Ptr) (repo : Ptr)
  | git_reference_free (r : Ptr)
  | git_reference_shorthand (r : Ptr)
  | git_graph_ahead_behind (ahead : Ptr) (behind : Ptr) (repo : Ptr)
      (local_oid : Ptr) (upstream_oid : Ptr)
deriving DecidableEq

/-- A trace of underlying library invocations made during one shim call. -/
abbrev Trace := List LibCall

/-- The underlying library as an abstract environment: one field per
`extern "C"` declaration in the source's `raw` module, with the same
argument and result types (void-returning functions yield only the new
memory). -/
structure Lib where
  git_libgit2_init : Mem → CInt × Mem
  git_libgit2_shutdown : Mem → CInt × Mem
  git_repository_open : Ptr → Ptr → Mem → CInt × Mem
  git_repository_free : Ptr → Mem → Mem
  git_repository_is_bare : Ptr → Mem → CInt × Mem
  git_repository_workdir : Ptr → Mem → Ptr × Mem
  git_status_options_init : Ptr → CUInt → Mem → CInt × Mem
  git_status_list_new : Ptr → Ptr → Ptr → Mem → CInt × Mem
  git_status_list_free : Ptr → Mem → Mem
  git_status_list_entrycount : Ptr → Mem → CSize × Mem
  git_repository_head : Ptr → Ptr → Mem → CInt × Mem
  git_reference_free : Ptr → Mem → Mem
  git_reference_shorthand : Ptr → Mem → Ptr × Mem
  git_graph_ahead_behind : Ptr → Ptr → Ptr → Ptr → Ptr → Mem → CInt × Mem

/-- Translation of `git2_shim_init`: body is the single call
`raw::git_libgit2_init()`. -/
def git2_shim_init (lib : Lib) (m : Mem) : CInt × Mem × Trace :=
  let r := lib.git_libgit2_init m
  (r.1, r.2, [LibCall.git_libgit2_init])

/-- Translation of `git2_shim_shutdown`: body is the single call
`raw::git_libgit2_shutdown()`. -/
def git2_shim_shutdown (lib : Lib) (m : Mem) : CInt × Mem × Trace :=
  let r := lib.git_libgit2_shutdown m
  (r.1, r.2, [LibCall.git_libgit2_shutdown])

/-- Translation of `git2_shim_repository_open`: body is the single call
`raw::git_repository_open(out, path)`. -/
def git2_shim_repository_open (lib : Lib) (out path : Ptr) (m : Mem) :
    CInt × Mem × Trace :=
  let r := lib.git_repository_open out path m
  (r.1, r.2, [LibCall.git_repository_open out path])

/-- Translation of `git2_shim_repository_free`: body is the single call
`raw::git_repository_free(repo)` (void result). -/
def git2_shim_repository_free (lib : Lib) (repo : Ptr) (m : Mem) :
    Mem × Trace :=
  (lib.git_repository_free repo m, [LibCall.git_repository_free repo])

/-- Translation of `git2_shim_repository_is_bare`: body is the single call
`raw::git_repository_is_bare(repo)`. -/
def git2_shim_repository_is_bare (lib : Lib) (repo : Ptr) (m : Mem) :
    CInt × Mem × Trace :=
  let r := lib.git_repository_is_bare repo m
  (r.1, r.2, [LibCall.git_repository_is_bare repo])

/-- Translation of `git2_shim_repository_workdir`: body is the single call
`raw::git_repository_workdir(repo)`; the result is the library's borrowed
string pointer. -/
def git2_shim_repository_workdir (lib : Lib) (repo : Ptr) (m : Mem) :
    Ptr × Mem × Trace :=
  let r := lib.git_repository_workdir repo m
  (r.1, r.2, [LibCall.git_repository_workdir repo])

/-- Translation of `git2_shim_status_options_init`: body is the single call
`raw::git_status_options_init(opts, version)`. -/
def git2_shim_status_options_init (lib : Lib) (opts : Ptr) (version : CUInt)
    (m : Mem) : CInt × Mem × Trace :=
  let r := lib.git_status_options_init opts version m
  (r.1, r.2, [LibCall.git_status_options_init opts version])

/-- Translation of `git2_shim_status_list_new`: body is the single call
`raw::git_status_list_new(out, repo, opts)`. -/
def git2_shim_status_list_new (lib : Lib) (out repo opts : Ptr) (m : Mem) :
    CInt × Mem × Trace :=
  let r := lib.git_status_list_new out repo opts m
  (r.1, r.2, [LibCall.git_status_list_new out repo opts])

/-- Translation of `git2_shim_status_list_free`: body is the single call
`raw::git_status_list_free(list)` (void result). -/
def git2_shim_status_list_free (lib : Lib) (list : Ptr) (m : Mem) :
    Mem × Trace :=
  (lib.git_status_list_free list m, [LibCall.git_status_list_free list])

/-- Translation of `git2_shim_status_list_entrycount`: body is the single
call `raw::git_status_list_entrycount(list)`. -/
def git2_shim_status_list_entrycount (lib : Lib) (list : Ptr) (m : Mem) :
    CSize × Mem × Trace :=
  let r := lib.git_status_list_entrycount list m
  (r.1, r.2, [LibCall.git_status_list_entrycount list])

/-- Translation of `git2_shim_repository_head`: body is the single call
`raw::git_repository_head(out, repo)`. -/
def git2_shim_repository_head (lib : Lib) (out repo : Ptr) (m : Mem) :
    CInt × Mem × Trace :=
  let r := lib.git_repository_head out repo m
  (r.1, r.2, [LibCall.git_repository_head out repo])

/-- Translation of `git2_shim_reference_free`: body is the single call
`raw::git_reference_free(ref_)` (void result). -/
def git2_shim_reference_free (lib : Lib) (r : Ptr) (m : Mem) : Mem × Trace :=
  (lib.git_reference_free r m, [LibCall.git_reference_free r])

/-- Translation of `git2_shim_reference_shorthand`: body is the single call
`raw::git_reference_shorthand(ref_)`; the result is the library's borrowed
string pointer. -/
def git2_shim_reference_shorthand (lib : Lib) (r : Ptr) (m : Mem) :
    Ptr × Mem × Trace :=
  let s := lib.git_reference_shorthand r m
  (s.1, s.2, [LibCall.git_reference_shorthand r])

/-- Translation of `git2_shim_graph_ahead_behind`: body is the single call
`raw::git_graph_ahead_behind(ahead, behind, repo, local, upstream)`. -/
def git2_shim_graph_ahead_behind (lib : Lib) (ahead behind repo lp up : Ptr)
    (m : Mem) : CInt × Mem × Trace :=
  let r := lib.git_graph_ahead_behind ahead behind repo lp up m
  (r.1, r.2, [LibCall.git_graph_ahead_behind ahead behind repo lp up])

/-- Spec side ("the shim is a pure pass-through layer; every exported
function body is a single forwarding call", result "verbatim"): the
behaviour that takes the underlying call's result and memory unchanged and
records exactly one library invocation. -/
def passThrough {α : Type} (r : α × Mem) (c : LibCall) : α × Mem × Trace :=
  (r.1, r.2, [c])

/-- Spec side, for the void-returning operations: the underlying call's
memory effect unchanged and exactly one recorded library invocation. -/
def passThroughVoid (m : Mem) (c : LibCall) : Mem × Trace :=
  (m, [c])

/-- An OID value: the byte sequence of an object identifier (the spec's
fixed-length binary hash). -/
abbrev OidVal := List Nat

/-- Modelled from the spec: the library-side state of one open repository —
its commit count (`0` = unborn HEAD), whether it is bare, the address of its
working-directory string, and the reference handle its HEAD resolves to. -/
structure RepoState where
  commits : Nat
  bare : Bool
  workdirPtr : Ptr
  headRefPtr : Ptr
deriving DecidableEq

/-- Modelled from the spec: the library-internal world the shim forwards
into — which paths name an existing repository, the handle an open at a path
produces, the repository state behind each handle, the borrowed short-name
string of each reference handle, the OID value stored at an address, the set
of commits reachable from an OID (inclusive), and the entry count of each
status list. -/
structure World where
  existingRepos : List Ptr
  openedHandle : Ptr → Ptr
  repoAt : Ptr → Option RepoState
  refName : Ptr → Ptr
  oidAt : Ptr → OidVal
  reach : OidVal → List OidVal
  statusCount : Ptr → Nat

/-- Modelled from the spec: libgit2 itself is external to the repository
(only its `extern "C"` declarations appear in the source), so its behaviour
is built here from the spec's words — status codes are `0` on success and a
(specific, library-defined) negative value on failure; `git_repository_open`
on a path with no repository returns a negative code and leaves the output
location unset; `git_repository_workdir` returns a null pointer exactly for
a bare repository; `git_repository_head` fails with a negative code on an
unborn HEAD (zero commits) and otherwise writes a reference handle;
`git_reference_shorthand` returns a borrowed string pointer owned by the
reference; `git_graph_ahead_behind` writes the counts of commits reachable
from one OID but not the other, in both directions. -/
def libModel (w : World) : Lib where
  git_libgit2_init := fun m => (0, m)
  git_libgit2_shutdown := fun m => (0, m)
  git_repository_open := fun out path m =>
    if path ∈ w.existingRepos then (0, writeMem m out (w.openedHandle path))
    else (-3, m)
  git_repository_free := fun _ m => m
  git_repository_is_bare := fun repo m =>
    match w.repoAt repo with
    | some r => ((if r.bare then 1 else 0), m)
    | none => (-1, m)
  git_repository_workdir := fun repo m =>
    match w.repoAt repo with
    | some r => ((if r.bare then 0 else r.workdirPtr), m)
    | none => (0, m)
  git_status_options_init := fun _ _ m => (0, m)
  git_status_list_new := fun out repo _ m =>
    match w.repoAt repo with
    | some _ => (0, writeMem m out repo)
    | none => (-1, m)
  git_status_list_free := fun _ m => m
  git_status_list_entrycount := fun list m => (w.statusCount list, m)
  git_repository_head := fun out repo m =>
    match w.repoAt repo with
    | some r =>
        if r.commits = 0 then (-9, m)
        else (0, writeMem m out r.headRefPtr)
    | none => (-1, m)
  git_reference_free := fun _ m => m
  git_reference_shorthand := fun r m => (w.refName r, m)
  git_graph_ahead_behind := fun ahead behind _ lp up m =>
    let rl := w.reach (w.oidAt lp)
    let ru := w.reach (w.oidAt up)
    let a := (rl.filter (fun x => decide (x ∉ ru))).length
    let b := (ru.filter (fun x => decide (x ∉ rl))).length
    (0, writeMem (writeMem m ahead a) behind b)

/-- A field type of a `repr(C)` struct declaration of the source. -/
inductive CField where
  | byteArray (n : Nat)
  | cuint
  | cushort
  | pointer
  | csize
  | strarrayVal
deriving DecidableEq

/-- `GIT_OID_RAWSZ` from the source. -/
def GIT_OID_RAWSZ : Nat := 20

/-- Field list of the source's `#[repr(C)] struct git_oid`. -/
def git_oid_fields : List (String × CField) :=
  [("id", CField.byteArray GIT_OID_RAWSZ)]

/-- Field list of the source's `#[repr(C)] struct git_strarray`. -/
def git_strarray_fields : List (String × CField) :=
  [("strings", CField.pointer), ("count", CField.csize)]

/-- Field list of the source's `#[repr(C)] struct git_status_options`. -/
def git_status_options_fields : List (String × CField) :=
  [("version", CField.cuint), ("show", CField.cuint), ("flags", CField.cuint),
   ("pathspec", CField.strarrayVal), ("baseline", CField.pointer),
   ("rename_threshold", CField.cushort)]

/-- Size in bytes of one declared field (LP64 C ABI: 4-byte `unsigned int`,
2-byte `u16`, 8-byte pointers and `size_t`; a `git_strarray` value is its
two fields). -/
def CField.byteSize : CField → Nat
  | CField.byteArray n => n
  | CField.cuint => 4
  | CField.cushort => 2
  | CField.pointer => 8
  | CField.csize => 8
  | CField.strarrayVal => 16

/-- Total declared payload size of a field list, in bytes. -/
def layoutBytes (fs : List (String × CField)) : Nat :=
  (fs.map (fun f => f.2.byteSize)).sum

/-- Spec side: "the OID is a 20-byte fixed array". -/
def spec_oid_fields : List (String × CField) :=
  [("id", CField.byteArray 20)]

/-- Spec side: "the string-array record is \x7bpointer-to-array-of-cstrings,
count\x7d". -/
def spec_strarray_fields : List (String × CField) :=
  [("strings", CField.pointer), ("count", CField.csize)]

/-- Spec side: the status-options record is "version tag, show/flags enums,
pathspec, baseline pointer, rename-threshold", in that order. -/
def spec_status_options_fields : List (String × CField) :=
  [("version", CField.cuint), ("show", CField.cuint), ("flags", CField.cuint),
   ("pathspec", CField.strarrayVal), ("baseline", CField.pointer),
   ("rename_threshold", CField.cushort)]

/-- The all-zero memory, used to instantiate theorems at concrete inputs. -/
def m0 : Mem := fun _ => 0

/-- A concrete empty world: no repositories exist. -/
def wBase : World where
  existingRepos := []
  openedHandle := fun _ => 0
  repoAt := fun _ => none
  refName := fun _ => 0
  oidAt := fun _ => []
  reach := fun _ => []
  statusCount := fun _ => 0

/-- A concrete world with one non-bare repository behind handle `3` holding
two commits (HEAD resolves to reference handle `77`), and one repository
behind handle `4` with zero commits (unborn HEAD). -/
def wRepo : World where
  existingRepos := [7]
  openedHandle := fun _ => 3
  repoAt := fun p =>
    if p = 3 then some ⟨2, false, 40, 77⟩
    else if p = 4 then some ⟨0, false, 41, 78⟩
    else none
  refName := fun r => if r = 77 then 90 else 0
  oidAt := fun _ => []
  reach := fun _ => []
  statusCount := fun _ => 0

/-- A concrete world with two OIDs stored at addresses `1` and `2`: the
commit set reachable from the first strictly contains the set reachable from
the second, with one extra commit. -/
def wGraph : World where
  existingRepos := []
  openedHandle := fun _ => 0
  repoAt := fun _ => none
  refName := fun _ => 0
  oidAt := fun p => if p = 1 then [1] else if p = 2 then [2] else []
  reach := fun o => if o = [1] then [[9], [2]] else if o = [2] then [[2]] else []
  statusCount := fun _ => 0

/-- Filtering a list by non-membership in a superset of its elements leaves
nothing. -/
theorem filter_not_mem_of_sub (l l' : List OidVal) (h : ∀ x ∈ l, x ∈ l') :
    l.filter (fun x => decide (x ∉ l')) = [] := by
  induction l with
  | nil => rfl
  | cons a t ih =>
      have ha : a ∈ l' := h a (List.mem_cons_self a t)
      have hd : (decide (a ∉ l') : Bool) = false := by simp [ha]
      rw [List.filter_cons, hd]
      simp only [Bool.false_eq_true, if_false]
      exact ih fun x hx => h x (List.mem_cons_of_mem a hx)

/-- Filtering a list by non-membership in a list disjoint from it keeps
everything. -/
theorem filter_of_disjoint (l l' : List OidVal) (h : ∀ x ∈ l, x ∉ l') :
    l.filter (fun x => decide (x ∉ l')) = l := by
  induction l with
  | nil => rfl
  | cons a t ih =>
      have ha : a ∉ l' := h a (List.mem_cons_self a t)
      have hd : (decide (a ∉ l') : Bool) = true := by simp [ha]
      rw [List.filter_cons, hd]
      simp only [if_true]
      rw [ih fun x hx => h x (List.mem_cons_of_mem a hx)]

/-- C1: every exported shim operation, at every argument tuple and every
library environment, is exactly the pass-through of the corresponding
underlying library call — the library is invoked exactly once with exactly
the given arguments (the trace is the singleton of that event), and the
library's result value and memory effect are returned verbatim, with no
translation, retry, buffering, or transformation. -/
theorem shim_is_pure_pass_through :
    (∀ lib m, git2_shim_init lib m
      = passThrough (lib.git_libgit2_init m) LibCall.git_libgit2_init)
    ∧ (∀ lib m, git2_shim_shutdown lib m
      = passThrough (lib.git_libgit2_shutdown m) LibCall.git_libgit2_shutdown)
    ∧ (∀ lib out path m, git2_shim_repository_open lib out path m
      = passThrough (lib.git_repository_open out path m)
          (LibCall.git_repository_open out path))
    ∧ (∀ lib repo m, git2_shim_repository_free lib repo m
      = passThroughVoid (lib.git_repository_free repo m)
          (LibCall.git_repository_free repo))
    ∧ (∀ lib repo m, git2_shim_repository_is_bare lib repo m
      = passThrough (lib.git_repository_is_bare repo m)
          (LibCall.git_repository_is_bare repo))
    ∧ (∀ lib repo m, git2_shim_repository_workdir lib repo m
      = passThrough (lib.git_repository_workdir repo m)
          (LibCall.git_repository_workdir repo))
    ∧ (∀ lib opts version m, git2_shim_status_options_init lib opts version m
      = passThrough (lib.git_status_options_init opts version m)
          (LibCall.git_status_options_init opts version))
    ∧ (∀ lib out repo opts m, git2_shim_status_list_new lib out repo opts m
      = passThrough (lib.git_status_list_new out repo opts m)
          (LibCall.git_status_list_new out repo opts))
    ∧ (∀ lib list m, git2_shim_status_list_free lib list m
      = passThroughVoid (lib.git_status_list_free list m)
          (LibCall.git_status_list_free list))
    ∧ (∀ lib list m, git2_shim_status_list_entrycount lib list m
      = passThrough (lib.git_status_list_entrycount list m)
          (LibCall.git_status_list_entrycount list))
    ∧ (∀ lib out repo m, git2_shim_repository_head lib out repo m
      = passThrough (lib.git_repository_head out repo m)
          (LibCall.git_repository_head out repo))
    ∧ (∀ lib r m, git2_shim_reference_free lib r m
      = passThroughVoid (lib.git_reference_free r m)
          (LibCall.git_reference_free r))
    ∧ (∀ lib r m, git2_shim_reference_shorthand lib r m
      = passThrough (lib.git_reference_shorthand r m)
          (LibCall.git_reference_shorthand r))
    ∧ (∀ lib ahead behind repo lp up m,
        git2_shim_graph_ahead_behind lib ahead behind repo lp up m
      = passThrough (lib.git_graph_ahead_behind ahead behind repo lp up m)
          (LibCall.git_graph_ahead_behind ahead behind repo lp up)) :=
  ⟨fun _ _ => rfl, fun _ _ => rfl, fun _ _ _ _ => rfl, fun _ _ _ => rfl,
   fun _ _ _ => rfl, fun _ _ _ => rfl, fun _ _ _ _ => rfl,
   fun _ _ _ _ _ => rfl, fun _ _ _ => rfl, fun _ _ _ => rfl,
   fun _ _ _ _ => rfl, fun _ _ _ => rfl, fun _ _ _ => rfl,
   fun _ _ _ _ _ _ _ => rfl⟩

/-- C2: `git2_shim_init` takes no program arguments (only the embedding's
library environment and memory) and returns the library's status code; in
every call in which the underlying library initialization succeeds (returns
`0`, the spec's success code), the value returned to the caller is `0`. -/
theorem init_success_returns_zero (lib : Lib) (m : Mem)
    (h : (lib.git_libgit2_init m).1 = 0) :
    (git2_shim_init lib m).1 = 0 :=
  h

/-- C2 witness: at the spec-modelled library over the empty world, library
initialization succeeds and the shim returns `0`. -/
theorem init_success_returns_zero_holds :
    (git2_shim_init (libModel wBase) m0).1 = 0 :=
  init_success_returns_zero (libModel wBase) m0 rfl

/-- C7: the declared data layouts match the spec's contracts — the OID type
is a single fixed array field of exactly 20 bytes (so 20 bytes in total),
the string-array record is exactly \x7bpointer-to-array-of-cstrings,
count\x7d, and the status-options record consists of exactly the fields
version tag, show enum, flags enum, pathspec string-array, baseline pointer,
and rename threshold, in that order. -/
theorem declared_layouts_match_spec :
    git_oid_fields = spec_oid_fields
    ∧ layoutBytes git_oid_fields = 20
    ∧ git_strarray_fields = spec_strarray_fields
    ∧ git_status_options_fields = spec_status_options_fields :=
  ⟨rfl, rfl, rfl, rfl⟩

/-- C8: no shim operation has any effect beyond its single underlying
library call — for every exported function, every memory location holds
after the shim call exactly what the underlying library call left there (so
any location the library leaves unchanged is unchanged by the shim), and the
trace shows no invocation besides that one call; the shim threads no state
of its own. -/
theorem shim_no_extra_effects :
    (∀ lib m a, (git2_shim_init lib m).2.1 a = (lib.git_libgit2_init m).2 a)
    ∧ (∀ lib m a,
        (git2_shim_shutdown lib m).2.1 a = (lib.git_libgit2_shutdown m).2 a)
    ∧ (∀ lib out path m a, (git2_shim_repository_open lib out path m).2.1 a
        = (lib.git_repository_open out path m).2 a)
    ∧ (∀ lib repo m a, (git2_shim_repository_free lib repo m).1 a
        = lib.git_repository_free repo m a)
    ∧ (∀ lib repo m a, (git2_shim_repository_is_bare lib repo m).2.1 a
        = (lib.git_repository_is_bare repo m).2 a)
    ∧ (∀ lib repo m a, (git2_shim_repository_workdir lib repo m).2.1 a
        = (lib.git_repository_workdir repo m).2 a)
    ∧ (∀ lib opts version m a,
        (git2_shim_status_options_init lib opts version m).2.1 a
        = (lib.git_status_options_init opts version m).2 a)
    ∧ (∀ lib out repo opts m a,
        (git2_shim_status_list_new lib out repo opts m).2.1 a
        = (lib.git_status_list_new out repo opts m).2 a)
    ∧ (∀ lib list m a, (git2_shim_status_list_free lib list m).1 a
        = lib.git_status_list_free list m a)
    ∧ (∀ lib list m a, (git2_shim_status_list_entrycount lib list m).2.1 a
        = (lib.git_status_list_entrycount list m).2 a)
    ∧ (∀ lib out repo m a, (git2_shim_repository_head lib out repo m).2.1 a
        = (lib.git_repository_head out repo m).2 a)
    ∧ (∀ lib r m a, (git2_shim_reference_free lib r m).1 a
        = lib.git_reference_free r m a)
    ∧ (∀ lib r m a, (git2_shim_reference_shorthand lib r m).2.1 a
        = (lib.git_reference_shorthand r m).2 a)
    ∧ (∀ lib ahead behind repo lp up m a,
        (git2_shim_graph_ahead_behind lib ahead behind repo lp up m).2.1 a
        = (lib.git_graph_ahead_behind ahead behind repo lp up m).2 a) :=
  ⟨fun _ _ _ => rfl, fun _ _ _ => rfl, fun _ _ _ _ _ => rfl,
   fun _ _ _ _ => rfl, fun _ _ _ _ => rfl, fun _ _ _ _ => rfl,
   fun _ _ _ _ _ => rfl, fun _ _ _ _ _ _ => rfl, fun _ _ _ _ => rfl,
   fun _ _ _ _ => rfl, fun _ _ _ _ _ => rfl, fun _ _ _ _ => rfl,
   fun _ _ _ _ => rfl, fun _ _ _ _ _ _ _ _ => rfl⟩

/-- C9: every shim function is deterministic relative to the underlying
library — whenever two calls to the same exported function with equal
arguments receive equal responses (result and memory) from the library, the
value returned to the caller and the resulting memory are equal; the shim
consumes no hidden input. -/
theorem shim_deterministic :
    (∀ lib lib' m m',
        lib.git_libgit2_init m = lib'.git_libgit2_init m' →
        (git2_shim_init lib m).1 = (git2_shim_init lib' m').1
        ∧ (git2_shim_init lib m).2.1 = (git2_shim_init lib' m').2.1)
    ∧ (∀ lib lib' m m',
        lib.git_libgit2_shutdown m = lib'.git_libgit2_shutdown m' →
        (git2_shim_shutdown lib m).1 = (git2_shim_shutdown lib' m').1
        ∧ (git2_shim_shutdown lib m).2.1 = (git2_shim_shutdown lib' m').2.1)
    ∧ (∀ lib lib' out path m m',
        lib.git_repository_open out path m
          = lib'.git_repository_open out path m' →
        (git2_shim_repository_open lib out path m).1
          = (git2_shim_repository_open lib' out path m').1
        ∧ (git2_shim_repository_open lib out path m).2.1
          = (git2_shim_repository_open lib' out path m').2.1)
    ∧ (∀ lib lib' repo m m',
        lib.git_repository_free repo m = lib'.git_repository_free repo m' →
        (git2_shim_repository_free lib repo m).1
          = (git2_shim_repository_free lib' repo m').1)
    ∧ (∀ lib lib' repo m m',
        lib.git_repository_is_bare repo m
          = lib'.git_repository_is_bare repo m' →
        (git2_shim_repository_is_bare lib repo m).1
          = (git2_shim_repository_is_bare lib' repo m').1
        ∧ (git2_shim_repository_is_bare lib repo m).2.1
          = (git2_shim_repository_is_bare lib' repo m').2.1)
    ∧ (∀ lib lib' repo m m',
        lib.git_repository_workdir repo m
          = lib'.git_repository_workdir repo m' →
        (git2_shim_repository_workdir lib repo m).1
          = (git2_shim_repository_workdir lib' repo m').1
        ∧ (git2_shim_repository_workdir lib repo m).2.1
          = (git2_shim_repository_workdir lib' repo m').2.1)
    ∧ (∀ lib lib' opts version m m',
        lib.git_status_options_init opts version m
          = lib'.git_status_options_init opts version m' →
        (git2_shim_status_options_init lib opts version m).1
          = (git2_shim_status_options_init lib' opts version m').1
        ∧ (git2_shim_status_options_init lib opts version m).2.1
          = (git2_shim_status_options_init lib' opts version m').2.1)
    ∧ (∀ lib lib' out repo opts m m',
        lib.git_status_list_new out repo opts m
          = lib'.git_status_list_new out repo opts m' →
        (git2_shim_status_list_new lib out repo opts m).1
          = (git2_shim_status_list_new lib' out repo opts m').1
        ∧ (git2_shim_status_list_new lib out repo opts m).2.1
          = (git2_shim_status_list_new lib' out repo opts m').2.1)
    ∧ (∀ lib lib' list m m',
        lib.git_status_list_free list m = lib'.git_status_list_free list m' →
        (git2_shim_status_list_free lib list m).1
          = (git2_shim_status_list_free lib' list m').1)
    ∧ (∀ lib lib' list m m',
        lib.git_status_list_entrycount list m
          = lib'.git_status_list_entrycount list m' →
        (git2_shim_status_list_entrycount lib list m).1
          = (git2_shim_status_list_entrycount lib' list m').1
        ∧ (git2_shim_status_list_entrycount lib list m).2.1
          = (git2_shim_status_list_entrycount lib' list m').2.1)
    ∧ (∀ lib lib' out repo m m',
        lib.git_repository_head out repo m
          = lib'.git_repository_head out repo m' →
        (git2_shim_repository_head lib out repo m).1
          = (git2_shim_repository_head lib' out repo m').1
        ∧ (git2_shim_repository_head lib out repo m).2.1
          = (git2_shim_repository_head lib' out repo m').2.1)
    ∧ (∀ lib lib' r m m',
        lib.git_reference_free r m = lib'.git_reference_free r m' →
        (git2_shim_reference_free lib r m).1
          = (git2_shim_reference_free lib' r m').1)
    ∧ (∀ lib lib' r m m',
        lib.git_reference_shorthand r m = lib'.git_reference_shorthand r m' →
        (git2_shim_reference_shorthand lib r m).1
          = (git2_shim_reference_shorthand lib' r m').1
        ∧ (git2_shim_reference_shorthand lib r m).2.1
          = (git2_shim_reference_shorthand lib' r m').2.1)
    ∧ (∀ lib lib' ahead behind repo lp up m m',
        lib.git_graph_ahead_behind ahead behind repo lp up m
          = lib'.git_graph_ahead_behind ahead behind repo lp up m' →
        (git2_shim_graph_ahead_behind lib ahead behind repo lp up m).1
          = (git2_shim_graph_ahead_behind lib' ahead behind repo lp up m').1
        ∧ (git2_shim_graph_ahead_behind lib ahead behind repo lp up m).2.1
          = (git2_shim_graph_ahead_behind lib' ahead behind repo lp up m').2.1) :=
  by
  refine ⟨?_, ?_, ?_, ?_, ?_, ?_, ?_, ?_, ?_, ?_, ?_, ?_, ?_, ?_⟩ <;>
    (intros
     rename_i h
     first
       | exact h
       | exact ⟨by have h1 := congrArg Prod.fst h; exact h1,
                by have h2 := congrArg Prod.snd h; exact h2⟩)

/-- C9 witness: two calls to `git2_shim_init` against two (here equal)
library environments with equal responses return equal values and equal
memories. -/
theorem shim_deterministic_holds :
    (git2_shim_init (libModel wBase) m0).1
      = (git2_shim_init (libModel wRepo) m0).1
    ∧ (git2_shim_init (libModel wBase) m0).2.1
      = (git2_shim_init (libModel wRepo) m0).2.1 :=
  shim_deterministic.1 (libModel wBase) (libModel wRepo) m0 m0 rfl

/-- C10: no shim function ever dereferences, inspects, or validates any of
its pointer arguments — for every pointer value, the null pointer `0`
included, each of the twelve pointer-taking exports records exactly one
library invocation carrying those argument values bit-for-bit, and the
value returned to the caller (for the void-returning frees, the resulting
memory) is exactly the library's result, so every rejection or error code
originates in the library; moreover the shim's return value depends only on
the library's response, not on the pointer values themselves. -/
theorem shim_pointer_args_opaque :
    (∀ lib out path m,
        (git2_shim_repository_open lib out path m).2.2
          = [LibCall.git_repository_open out path]
        ∧ (git2_shim_repository_open lib out path m).1
          = (lib.git_repository_open out path m).1)
    ∧ (∀ lib opts version m,
        (git2_shim_status_options_init lib opts version m).2.2
          = [LibCall.git_status_options_init opts version]
        ∧ (git2_shim_status_options_init lib opts version m).1
          = (lib.git_status_options_init opts version m).1)
    ∧ (∀ lib out repo opts m,
        (git2_shim_status_list_new lib out repo opts m).2.2
          = [LibCall.git_status_list_new out repo opts]
        ∧ (git2_shim_status_list_new lib out repo opts m).1
          = (lib.git_status_list_new out repo opts m).1)
    ∧ (∀ lib ahead behind repo lp up m,
        (git2_shim_graph_ahead_behind lib ahead behind repo lp up m).2.2
          = [LibCall.git_graph_ahead_behind ahead behind repo lp up]
        ∧ (git2_shim_graph_ahead_behind lib ahead behind repo lp up m).1
          = (lib.git_graph_ahead_behind ahead behind repo lp up m).1)
    ∧ (∀ lib repo m,
        (git2_shim_repository_free lib repo m).2
          = [LibCall.git_repository_free repo]
        ∧ (git2_shim_repository_free lib repo m).1
          = lib.git_repository_free repo m)
    ∧ (∀ lib repo m,
        (git2_shim_repository_is_bare lib repo m).2.2
          = [LibCall.git_repository_is_bare repo]
        ∧ (git2_shim_repository_is_bare lib repo m).1
          = (lib.git_repository_is_bare repo m).1)
    ∧ (∀ lib repo m,
        (git2_shim_repository_workdir lib repo m).2.2
          = [LibCall.git_repository_workdir repo]
        ∧ (git2_shim_repository_workdir lib repo m).1
          = (lib.git_repository_workdir repo m).1)
    ∧ (∀ lib list m,
        (git2_shim_status_list_free lib list m).2
          = [LibCall.git_status_list_free list]
        ∧ (git2_shim_status_list_free lib list m).1
          = lib.git_status_list_free list m)
    ∧ (∀ lib list m,
        (git2_shim_status_list_entrycount lib list m).2.2
          = [LibCall.git_status_list_entrycount list]
        ∧ (git2_shim_status_list_entrycount lib list m).1
          = (lib.git_status_list_entrycount list m).1)
    ∧ (∀ lib out repo m,
        (git2_shim_repository_head lib out repo m).2.2
          = [LibCall.git_repository_head out repo]
        ∧ (git2_shim_repository_head lib out repo m).1
          = (lib.git_repository_head out repo m).1)
    ∧ (∀ lib r m,
        (git2_shim_reference_free lib r m).2
          = [LibCall.git_reference_free r]
        ∧ (git2_shim_reference_free lib r m).1
          = lib.git_reference_free r m)
    ∧ (∀ lib r m,
        (git2_shim_reference_shorthand lib r m).2.2
          = [LibCall.git_reference_shorthand r]
        ∧ (git2_shim_reference_shorthand lib r m).1
          = (lib.git_reference_shorthand r m).1)
    ∧ (∀ lib lib' out out' path path' m m',
        lib.git_repository_open out path m
          = lib'.git_repository_open out' path' m' →
        (git2_shim_repository_open lib out path m).1
          = (git2_shim_repository_open lib' out' path' m').1) :=
  ⟨fun _ _ _ _ => ⟨rfl, rfl⟩, fun _ _ _ _ => ⟨rfl, rfl⟩,
   fun _ _ _ _ _ => ⟨rfl, rfl⟩, fun _ _ _ _ _ _ _ => ⟨rfl, rfl⟩,
   fun _ _ _ => ⟨rfl, rfl⟩, fun _ _ _ => ⟨rfl, rfl⟩,
   fun _ _ _ => ⟨rfl, rfl⟩, fun _ _ _ => ⟨rfl, rfl⟩,
   fun _ _ _ => ⟨rfl, rfl⟩, fun _ _ _ _ => ⟨rfl, rfl⟩,
   fun _ _ _ => ⟨rfl, rfl⟩, fun _ _ _ => ⟨rfl, rfl⟩,
   fun _ _ _ _ _ _ _ _ h => by have h1 := congrArg Prod.fst h; exact h1⟩

/-- C10 witness: with the null path pointer `0` in one call and a different
path pointer `7` in the other, equal library responses give equal returned
values — the shim did not inspect the pointers. -/
theorem shim_pointer_args_opaque_holds :
    (git2_shim_repository_open (libModel wBase) 5 0 m0).1
      = (git2_shim_repository_open (libModel wBase) 6 7 m0).1 :=
  shim_pointer_args_opaque.2.2.2.2.2.2.2.2.2.2.2.2 (libModel wBase)
    (libModel wBase) 5 6 0 7 m0 m0 rfl

/-- C3: opening a path at which no repository exists returns a negative
status code and leaves every memory location — in particular the output
handle location — unchanged. -/
theorem repository_open_nonexistent (w : World) (out path : Ptr) (m : Mem)
    (h : path ∉ w.existingRepos) :
    (git2_shim_repository_open (libModel w) out path m).1 < 0
    ∧ ∀ a, (git2_shim_repository_open (libModel w) out path m).2.1 a = m a := by
  have hx : (libModel w).git_repository_open out path m = (-3, m) := by
    simp [libModel, h]
  constructor
  · show ((libModel w).git_repository_open out path m).1 < 0
    rw [hx]
    norm_num
  · intro a
    show ((libModel w).git_repository_open out path m).2 a = m a
    rw [hx]

/-- C3 witness: in the empty world no repository exists at path `7`; the
open returns a negative code and the output location `5` still holds its
previous value. -/
theorem repository_open_nonexistent_holds :
    (git2_shim_repository_open (libModel wBase) 5 7 m0).1 < 0
    ∧ (git2_shim_repository_open (libModel wBase) 5 7 m0).2.1 5 = m0 5 :=
  ⟨(repository_open_nonexistent wBase 5 7 m0 (by decide)).1,
   (repository_open_nonexistent wBase 5 7 m0 (by decide)).2 5⟩

/-- C4: for every repository handle behind which the library holds a
repository, get-HEAD either succeeds — returning `0` and writing the HEAD
reference handle through the output parameter — or, when the repository has
zero commits (unborn HEAD), returns a negative status code. -/
theorem repository_head_unborn_or_success (w : World) (out repo : Ptr)
    (m : Mem) (r : RepoState) (h : w.repoAt repo = some r) :
    (r.commits = 0 →
      (git2_shim_repository_head (libModel w) out repo m).1 < 0)
    ∧ (r.commits ≠ 0 →
      (git2_shim_repository_head (libModel w) out repo m).1 = 0
      ∧ (git2_shim_repository_head (libModel w) out repo m).2.1 out
          = r.headRefPtr) := by
  constructor
  · intro hz
    have hx : (libModel w).git_repository_head out repo m = (-9, m) := by
      simp [libModel, h, hz]
    show ((libModel w).git_repository_head out repo m).1 < 0
    rw [hx]
    norm_num
  · intro hz
    have hx : (libModel w).git_repository_head out repo m
        = (0, writeMem m out r.headRefPtr) := by
      simp [libModel, h, hz]
    refine ⟨?_, ?_⟩
    · show ((libModel w).git_repository_head out repo m).1 = 0
      rw [hx]
    · show ((libModel w).git_repository_head out repo m).2 out = r.headRefPtr
      rw [hx]
      simp [writeMem]

/-- C4 witness: in the concrete world, get-HEAD on the two-commit repository
behind handle `3` returns `0` and writes reference handle `77`, and on the
zero-commit repository behind handle `4` returns a negative code. -/
theorem repository_head_unborn_or_success_holds :
    ((git2_shim_repository_head (libModel wRepo) 9 3 m0).1 = 0
      ∧ (git2_shim_repository_head (libModel wRepo) 9 3 m0).2.1 9 = 77)
    ∧ (git2_shim_repository_head (libModel wRepo) 9 4 m0).1 < 0 :=
  ⟨(repository_head_unborn_or_success wRepo 9 3 m0 ⟨2, false, 40, 77⟩
      rfl).2 (by decide),
   (repository_head_unborn_or_success wRepo 9 4 m0 ⟨0, false, 41, 78⟩
      rfl).1 rfl⟩

/-- C5: `git2_shim_graph_ahead_behind` writes through its two (distinct)
output parameters the counts of commits reachable from one OID but not the
other, in both directions; for two identical OID values it writes `(0, 0)`,
and when the commits reachable from the local OID are exactly `N` extra
commits (absent from the upstream's reachable set) on top of the upstream's
reachable set — no divergence — it writes `(N, 0)`. -/
theorem graph_ahead_behind_counts (w : World) (ahead behind repo lp up : Ptr)
    (m : Mem) (hab : ahead ≠ behind) :
    ((git2_shim_graph_ahead_behind (libModel w) ahead behind repo lp up
        m).2.1 ahead
      = ((w.reach (w.oidAt lp)).filter
          (fun x => decide (x ∉ w.reach (w.oidAt up)))).length
     ∧ (git2_shim_graph_ahead_behind (libModel w) ahead behind repo lp up
        m).2.1 behind
      = ((w.reach (w.oidAt up)).filter
          (fun x => decide (x ∉ w.reach (w.oidAt lp)))).length)
    ∧ (w.oidAt lp = w.oidAt up →
      (git2_shim_graph_ahead_behind (libModel w) ahead behind repo lp up
        m).2.1 ahead = 0
      ∧ (git2_shim_graph_ahead_behind (libModel w) ahead behind repo lp up
        m).2.1 behind = 0)
    ∧ (∀ extra N,
      w.reach (w.oidAt lp) = extra ++ w.reach (w.oidAt up) →
      (∀ x ∈ extra, x ∉ w.reach (w.oidAt up)) →
      extra.length = N →
      (git2_shim_graph_ahead_behind (libModel w) ahead behind repo lp up
        m).2.1 ahead = N
      ∧ (git2_shim_graph_ahead_behind (libModel w) ahead behind repo lp up
        m).2.1 behind = 0) := by
  have hA : (git2_shim_graph_ahead_behind (libModel w) ahead behind repo lp
      up m).2.1 ahead
      = ((w.reach (w.oidAt lp)).filter
          (fun x => decide (x ∉ w.reach (w.oidAt up)))).length := by
    show writeMem (writeMem m ahead _) behind _ ahead = _
    simp [writeMem, hab]
  have hB : (git2_shim_graph_ahead_behind (libModel w) ahead behind repo lp
      up m).2.1 behind
      = ((w.reach (w.oidAt up)).filter
          (fun x => decide (x ∉ w.reach (w.oidAt lp)))).length := by
    show writeMem (writeMem m ahead _) behind _ behind = _
    simp [writeMem]
  refine ⟨⟨hA, hB⟩, ?_, ?_⟩
  · intro heq
    constructor
    · rw [hA, heq]
      rw [filter_not_mem_of_sub _ _ (fun x hx => hx)]
      rfl
    · rw [hB, heq]
      rw [filter_not_mem_of_sub _ _ (fun x hx => hx)]
      rfl
  · intro extra N hrl hdis hlen
    constructor
    · rw [hA, hrl, List.filter_append,
        filter_of_disjoint _ _ hdis,
        filter_not_mem_of_sub _ _ (fun x hx => hx)]
      simp [hlen]
    · rw [hB]
      rw [filter_not_mem_of_sub _ _
        (fun x hx => by rw [hrl]; exact List.mem_append_right extra hx)]
      rfl

/-- C5 witness: in the concrete graph world the local OID at address `1`
reaches one commit more than the upstream OID at address `2` (no
divergence), so the counts written are `(1, 0)`; with both OID addresses
equal to `2` the values are identical and the counts written are `(0, 0)`. -/
theorem graph_ahead_behind_counts_holds :
    ((git2_shim_graph_ahead_behind (libModel wGraph) 10 11 5 1 2 m0).2.1 10
        = 1
      ∧ (git2_shim_graph_ahead_behind (libModel wGraph) 10 11 5 1 2 m0).2.1
          11 = 0)
    ∧ ((git2_shim_graph_ahead_behind (libModel wGraph) 10 11 5 2 2 m0).2.1
        10 = 0
      ∧ (git2_shim_graph_ahead_behind (libModel wGraph) 10 11 5 2 2 m0).2.1
          11 = 0) :=
  ⟨(graph_ahead_behind_counts wGraph 10 11 5 1 2 m0 (by decide)).2.2
      [[9]] 1 rfl (by decide) rfl,
   (graph_ahead_behind_counts wGraph 10 11 5 2 2 m0 (by decide)).2.1 rfl⟩

/-- C6: `git2_shim_repository_workdir` returns exactly the borrowed string
pointer produced by the underlying library, with the library's memory effect
and a single recorded invocation (the shim allocates, copies, and frees
nothing); against the spec-modelled library the returned pointer is null
exactly when the repository is bare; and `git2_shim_reference_shorthand`
likewise returns the library's borrowed pointer unchanged — in the model,
the string owned by the reference — leaving memory untouched. -/
theorem workdir_shorthand_borrowed :
    (∀ lib repo m,
        (git2_shim_repository_workdir lib repo m).1
          = (lib.git_repository_workdir repo m).1
        ∧ (git2_shim_repository_workdir lib repo m).2.1
          = (lib.git_repository_workdir repo m).2
        ∧ (git2_shim_repository_workdir lib repo m).2.2
          = [LibCall.git_repository_workdir repo])
    ∧ (∀ lib r m,
        (git2_shim_reference_shorthand lib r m).1
          = (lib.git_reference_shorthand r m).1
        ∧ (git2_shim_reference_shorthand lib r m).2.1
          = (lib.git_reference_shorthand r m).2
        ∧ (git2_shim_reference_shorthand lib r m).2.2
          = [LibCall.git_reference_shorthand r])
    ∧ (∀ w repo r m, w.repoAt repo = some r → r.workdirPtr ≠ 0 →
        ((git2_shim_repository_workdir (libModel w) repo m).1 = 0
          ↔ r.bare = true))
    ∧ (∀ w r m,
        (git2_shim_reference_shorthand (libModel w) r m).1 = w.refName r
        ∧ ∀ a, (git2_shim_reference_shorthand (libModel w) r m).2.1 a
            = m a) := by
  refine ⟨fun _ _ _ => ⟨rfl, rfl, rfl⟩, fun _ _ _ => ⟨rfl, rfl, rfl⟩,
    ?_, fun _ _ _ => ⟨rfl, fun _ => rfl⟩⟩
  intro w repo r m h hp
  have hx : (libModel w).git_repository_workdir repo m
      = ((if r.bare then 0 else r.workdirPtr), m) := by
    simp [libModel, h]
  show ((libModel w).git_repository_workdir repo m).1 = 0 ↔ r.bare = true
  rw [hx]
  cases hb : r.bare with
  | true => simp
  | false => simp [hp]

/-- C6 witness: for the non-bare repository behind handle `3` of the
concrete world, the returned working-directory pointer is non-null (the
null-iff-bare equivalence instantiated at `bare = false`), and the
shorthand of reference handle `77` is the model's borrowed string pointer
`90` with memory untouched. -/
theorem workdir_shorthand_borrowed_holds :
    ((git2_shim_repository_workdir (libModel wRepo) 3 m0).1 = 0
      ↔ (RepoState.mk 2 false 40 77).bare = true)
    ∧ (git2_shim_reference_shorthand (libModel wRepo) 77 m0).1
        = wRepo.refName 77 :=
  ⟨workdir_shorthand_borrowed.2.2.1 wRepo 3 ⟨2, false, 40, 77⟩ m0 rfl
      (by decide),
   (workdir_shorthand_borrowed.2.2.2 wRepo 77 m0).1⟩
